import Mathlib

/-!
Shallow embedding of `src/main.py` (vegetation-survey summarizer) and proofs
about its survey-numbering, summary-layout, and path-derivation logic.

Dates are modelled as integers (`Int`): Python `datetime` values form a total
order and the code only ever compares, sorts and equates them.  Measured cell
values are modelled as `Option Int` (a cell is either empty, i.e. `None`, or
holds a number).
-/

namespace VegSurvey

/-- `VARIABLE_LIST = ['DNF', 'DF', 'FU']` (main.py line 17). -/
def VARIABLE_LIST : List String := ["DNF", "DF", "FU"]

/-- `NUM_PHENOLOGIES = 2` (main.py line 18). -/
def NUM_PHENOLOGIES : Nat := 2

/-- A species record (class `Species`, main.py lines 21-39), after
construction: the three measurement fields are plain integers because
`__init__` normalizes `None` to `0`. -/
structure Species where
  id : String
  dnf : Int
  df : Int
  fu : Int
deriving DecidableEq

/-- `Species.__init__` (main.py lines 26-39): each of the three measurement
inputs is replaced by `0` exactly when it is `None`. -/
def Species.make (name : String) (non_flowering_density flowering_density flowering_units : Option Int) : Species :=
  { id := name
    dnf := match non_flowering_density with
      | none => 0
      | some v => v
    df := match flowering_density with
      | none => 0
      | some v => v
    fu := match flowering_units with
      | none => 0
      | some v => v }

/-- A survey entity (class `Survey`, main.py lines 42-56).  `phen_num` is an
`Int` because the renumbering arithmetic in `_calc_num_phenologies` subtracts
and is not bounded below by the code. -/
structure Survey where
  site : String
  date : Int
  species : List Species
  phen_num : Int
deriving DecidableEq

/-- The class-level mutable state of `Survey`: `all_surveys` (registration
order) and `survey_dates` (main.py lines 47-48). -/
structure Registry where
  all_surveys : List Survey
  survey_dates : List Int
deriving DecidableEq

def emptyRegistry : Registry :=
  { all_surveys := [], survey_dates := [] }

/-- Fuel-bounded loop of CPython `bisect.bisect_right(a, x)`:
`while lo < hi: mid = (lo+hi)//2; if x < a[mid]: hi = mid else: lo = mid+1`.
Each iteration strictly shrinks `hi - lo`, so any fuel `≥ hi - lo` computes
the loop's answer; `bisect_right` below supplies `a.length + 1`.
`a.getD mid 0` models `a[mid]`, whose index is always in range here. -/
def bisect_right_go (a : List Int) (x : Int) : Nat → Nat → Nat → Nat
  | 0, lo, _ => lo
  | fuel + 1, lo, hi =>
    if lo < hi then
      let mid := (lo + hi) / 2
      if x < a.getD mid 0 then bisect_right_go a x fuel lo mid
      else bisect_right_go a x fuel (mid + 1) hi
    else lo

/-- `bisect.bisect_right(a, x)` over the whole list. -/
def bisect_right (a : List Int) (x : Int) : Nat :=
  bisect_right_go a x (a.length + 1) 0 a.length

/-- `bisect.insort(a, x)`: insert `x` at position `bisect_right a x`.  Note
the source calls this on a list that is NOT necessarily sorted (registration
order), so the insertion point is whatever the binary search happens to
return there. -/
def insort (a : List Int) (x : Int) : List Int :=
  a.take (bisect_right a x) ++ x :: a.drop (bisect_right a x)

/-- `Survey.get_other_surveys_from_site` (main.py lines 65-70): the already
registered surveys sharing the given site (the new survey is appended to
`all_surveys` only after `_calc_num_phenologies` runs). -/
def get_other_surveys_from_site (r : Registry) (site : String) : List Survey :=
  r.all_surveys.filter (fun other_survey => site == other_survey.site)

/-- `Survey.get_dates_site_surveyed` (main.py lines 58-63). -/
def get_dates_site_surveyed (r : Registry) (site : String) : List Int :=
  (r.all_surveys.filter (fun other_survey => site == other_survey.site)).map (fun other_survey => other_survey.date)

/-- The effect of the two `for` loops in `_calc_num_phenologies`
(main.py lines 86-91) on one already-registered survey: surveys at the same
site dated strictly before the new date get `phen_num -= 1`, those dated
strictly after get `phen_num += 1`, all other surveys are untouched. -/
def renumber (site : String) (date : Int) (surv : Survey) : Survey :=
  if site == surv.site then
    if surv.date < date then { surv with phen_num := surv.phen_num - 1 }
    else if date < surv.date then { surv with phen_num := surv.phen_num + 1 }
    else surv
  else surv

/-- `Survey.__init__` together with `Survey._calc_num_phenologies`
(main.py lines 50-56 and 72-94): compute the new survey's `phen_num` from
`insort`-ing its date into the (registration-ordered) list of same-site dates,
apply `renumber` to every already-registered survey, append the new survey,
and union the date into `survey_dates`. -/
def register (r : Registry) (site : String) (date : Int) (species_comp : List Species) : Registry :=
  let dates_surveyed := insort (get_dates_site_surveyed r site) date
  let phen_num : Int := (dates_surveyed.indexOf date : Nat) + 1
  let updated := r.all_surveys.map (renumber site date)
  { all_surveys := updated ++ [{ site := site, date := date, species := species_comp, phen_num := phen_num }]
    survey_dates :=
      if date ∈ r.survey_dates then r.survey_dates else insort r.survey_dates date }

/-- Register a whole list of (site, date) pairs in order, each with an empty
species list (species content is irrelevant to the numbering algorithm). -/
def registerAll (r : Registry) (l : List (String × Int)) : Registry :=
  l.foldl (fun acc p => register acc p.1 p.2 []) r

/-- Observation used by the numbering theorems: the (date, phen_num) pairs of
a site's surveys in registration order. -/
def sitePhenologies (r : Registry) (site : String) : List (Int × Int) :=
  (r.all_surveys.filter (fun s => s.site == site)).map (fun s => (s.date, s.phen_num))

end VegSurvey

namespace VegSurvey

/-- `renumber` never changes the `site` field. -/
theorem renumber_site (site : String) (date : Int) (surv : Survey) :
    (renumber site date surv).site = surv.site := by
  unfold renumber
  split_ifs <;> rfl

/-- `renumber` is the identity on surveys of a different site. -/
theorem renumber_of_ne_site (site : String) (date : Int) (surv : Survey)
    (h : surv.site ≠ site) : renumber site date surv = surv := by
  unfold renumber
  rw [if_neg]
  simp only [beq_iff_eq]
  exact fun e => h e.symm

/-- Helper for C4: renumbering commutes away under a filter that keeps only
surveys of other sites. -/
theorem filter_other_sites_map_renumber (l : List Survey) (site : String) (date : Int) :
    (l.map (renumber site date)).filter (fun s => s.site != site)
      = l.filter (fun s => s.site != site) := by
  induction l with
  | nil => rfl
  | cons a t ih =>
    simp only [List.map_cons, List.filter_cons, renumber_site]
    by_cases h : a.site = site
    · simp [h, ih]
    · rw [renumber_of_ne_site site date a h]
      simp [h, ih]

end VegSurvey

namespace VegSurvey

/-- C1: the spec's scenario — site-A surveys registered with dates
2020-03-01, 2020-01-01, 2020-02-01 (encoded 3, 1, 2) should end with the
2020-01-01 survey at index 1, the 2020-02-01 survey at index 2 and the
2020-03-01 survey at index 3.  The code instead leaves them at indices 0, 3
and 3: `bisect.insort` runs on a registration-ordered (unsorted) date list,
and earlier-dated surveys are decremented.  Consequently sorting by
`phen_num` no longer reproduces the date order. -/
theorem c1_order_invariant_fails_on_code :
    sitePhenologies (registerAll emptyRegistry [("A", 3), ("A", 1), ("A", 2)]) "A"
        = [(3, 3), (1, 0), (2, 3)]
  ∧ sitePhenologies (registerAll emptyRegistry [("A", 3), ("A", 1), ("A", 2)]) "A"
        ≠ [(3, 3), (1, 1), (2, 2)] := by
  decide

/-- C2: registering site-A surveys dated 1 then 3: the claim says the
earlier-dated survey keeps `phen_num = 1` unchanged, but the code decrements
every same-site survey dated strictly before the new date, leaving it at 0
(the new survey does get 1 + 1 = 2 here). -/
theorem c2_register_effects_fail_on_code :
    sitePhenologies (registerAll emptyRegistry [("A", 1), ("A", 3)]) "A"
        = [(1, 0), (3, 2)]
  ∧ sitePhenologies (registerAll emptyRegistry [("A", 1), ("A", 3)]) "A"
        ≠ [(1, 1), (3, 2)] := by
  decide

/-- C3: two site-A surveys at exactly equal dates (5 and 5): the claim says
the indices must be exactly {1, 2} with the earlier registration lower, but
`dates_surveyed.index(survey.date)` finds the FIRST occurrence of the date,
so both surveys end with `phen_num = 1` — a duplicate, and 2 is missing. -/
theorem c3_index_density_fails_on_code :
    ((sitePhenologies (registerAll emptyRegistry [("A", 5), ("A", 5)]) "A").map Prod.snd
        = [1, 1])
  ∧ ((sitePhenologies (registerAll emptyRegistry [("A", 5), ("A", 5)]) "A").map Prod.snd
        ≠ [1, 2]) := by
  decide

/-- C4: registering a survey for one site never changes any previously
registered survey of a different site: the sublist of `all_surveys` holding
the other sites' surveys — every field included — is exactly the same before
and after `register`. -/
theorem c4_cross_site_independence (r : Registry) (site : String) (date : Int)
    (species_comp : List Species) :
    (register r site date species_comp).all_surveys.filter (fun s => s.site != site)
      = r.all_surveys.filter (fun s => s.site != site) := by
  unfold register
  simp only [List.filter_append, filter_other_sites_map_renumber]
  simp

/-- C8: a species record constructed with an absent (`None`) density or
units input holds 0 in that field — the fields are integers, never null —
and the spec's scenario: name "Grass", both densities absent, units 5 yields
the record ("Grass", 0, 0, 5). -/
theorem c8_species_defaults :
    (∀ name fd fu, (Species.make name none fd fu).dnf = 0)
  ∧ (∀ name nfd fu, (Species.make name nfd none fu).df = 0)
  ∧ (∀ name nfd fd, (Species.make name nfd fd none).fu = 0)
  ∧ Species.make "Grass" none none (some 5)
      = { id := "Grass", dnf := 0, df := 0, fu := 5 } := by
  refine ⟨fun _ _ _ => rfl, fun _ _ _ => rfl, fun _ _ _ => rfl, rfl⟩

end VegSurvey

namespace VegSurvey

/-- Python list repetition `l * n`. -/
def listRepeat {α : Type} (l : List α) (n : Nat) : List α :=
  (List.replicate n l).flatten

/-- Python's built-in `sorted` on a totally ordered type.  `sorted` is a
stable sort by `≤`; `List.insertionSort` is stable as well, and every use in
the source only ties identical values, so the result is the unique sorted
permutation in any case. -/
def pySorted {α : Type} [LinearOrder α] (l : List α) : List α :=
  List.insertionSort (fun x y => x ≤ y) l

/-- Python `list(range(a, b))` over integers. -/
def pyRange (a b : Int) : List Int :=
  (List.range (b - a).toNat).map (fun i => a + (i : Int))

/-- The column of site values generated by `write_sites_to_rows`
(main.py lines 194-199): `name_copy = site_names * (len(VARIABLE_LIST) *
NUM_PHENOLOGIES)`, written to column 1 from row 2 down. -/
def sitesColumn (site_names : List String) : List String :=
  listRepeat site_names (VARIABLE_LIST.length * NUM_PHENOLOGIES)

/-- The column of variable names generated by `write_variables_to_rows`
(main.py lines 202-206): `sorted(VARIABLE_LIST * num_sites *
NUM_PHENOLOGIES)`, written to column 2 from row 2 down. -/
def variablesColumn (num_sites : Nat) : List String :=
  pySorted (listRepeat (listRepeat VARIABLE_LIST num_sites) NUM_PHENOLOGIES)

/-- The column of phenology indices generated by `write_phenology_to_rows`
(main.py lines 209-214): `sorted(list(range(1, NUM_PHENOLOGIES + 1)) *
num_sites) * len(VARIABLE_LIST)`, written to column 3 from row 2 down. -/
def phenologyColumn (num_sites : Nat) : List Int :=
  listRepeat (pySorted (listRepeat (pyRange 1 ((NUM_PHENOLOGIES : Int) + 1)) num_sites)) VARIABLE_LIST.length

/-- The body row count computed by `write_data_to_rows` (main.py line 219):
`num_rows = num_sites * NUM_PHENOLOGIES * len(VARIABLE_LIST)`. -/
def summaryNumRows (num_sites : Nat) : Nat :=
  num_sites * NUM_PHENOLOGIES * VARIABLE_LIST.length

theorem listRepeat_nil {α : Type} (n : Nat) : listRepeat ([] : List α) n = [] := by
  induction n with
  | zero => rfl
  | succ k ih => simp [listRepeat, List.replicate_succ] at ih ⊢

theorem listRepeat_succ {α : Type} (l : List α) (n : Nat) :
    listRepeat l (n + 1) = l ++ listRepeat l n := by
  simp [listRepeat, List.replicate_succ]

theorem listRepeat_length {α : Type} (l : List α) (n : Nat) :
    (listRepeat l n).length = n * l.length := by
  induction n with
  | zero => simp [listRepeat]
  | succ k ih =>
    rw [listRepeat_succ, List.length_append, ih, Nat.succ_mul]
    omega

theorem listRepeat_add {α : Type} (l : List α) (m n : Nat) :
    listRepeat l (m + n) = listRepeat l m ++ listRepeat l n := by
  unfold listRepeat
  rw [List.replicate_add, List.flatten_append]

theorem listRepeat_listRepeat {α : Type} (l : List α) (m n : Nat) :
    listRepeat (listRepeat l n) m = listRepeat l (m * n) := by
  induction m with
  | zero => simp [listRepeat]
  | succ k ih =>
    rw [listRepeat_succ, ih, Nat.succ_mul, Nat.add_comm (k * n) n, listRepeat_add]

theorem listRepeat_cons_perm {α : Type} (x : α) (l : List α) (n : Nat) :
    (listRepeat (x :: l) n).Perm (List.replicate n x ++ listRepeat l n) := by
  induction n with
  | zero => exact List.Perm.refl _
  | succ k ih =>
    rw [listRepeat_succ, List.replicate_succ, listRepeat_succ, List.cons_append]
    simp only [List.cons_append]
    refine List.Perm.cons x ?_
    refine (List.Perm.append_left l ih).trans ?_
    rw [← List.append_assoc, ← List.append_assoc]
    exact List.Perm.append_right (listRepeat l k) List.perm_append_comm

end VegSurvey

namespace VegSurvey

theorem pySorted_eq_of_perm_sorted {α : Type} [LinearOrder α] (l target : List α)
    (hperm : l.Perm target) (hsort : List.Sorted (fun x y => x ≤ y) target) :
    pySorted l = target :=
  List.eq_of_perm_of_sorted ((List.perm_insertionSort _ l).trans hperm)
    (List.sorted_insertionSort _ l) hsort

theorem sorted_replicate_append_replicate {α : Type} [LinearOrder α]
    (a b : α) (hab : a ≤ b) (m n : Nat) :
    List.Sorted (fun x y => x ≤ y) (List.replicate m a ++ List.replicate n b) := by
  rw [List.Sorted, List.pairwise_append]
  refine ⟨?_, ?_, ?_⟩
  · exact List.pairwise_replicate.mpr (Or.inr le_rfl)
  · exact List.pairwise_replicate.mpr (Or.inr le_rfl)
  · intro x hx y hy
    rw [List.eq_of_mem_replicate hx, List.eq_of_mem_replicate hy]
    exact hab

theorem sorted_three_blocks {α : Type} [LinearOrder α]
    (a b c : α) (hab : a ≤ b) (hbc : b ≤ c) (n : Nat) :
    List.Sorted (fun x y => x ≤ y)
      (List.replicate n a ++ (List.replicate n b ++ List.replicate n c)) := by
  rw [List.Sorted, List.pairwise_append]
  refine ⟨List.pairwise_replicate.mpr (Or.inr le_rfl),
    sorted_replicate_append_replicate b c hbc n n, ?_⟩
  intro x hx y hy
  rw [List.eq_of_mem_replicate hx]
  rcases List.mem_append.mp hy with h | h
  · rw [List.eq_of_mem_replicate h]
    exact hab
  · rw [List.eq_of_mem_replicate h]
    exact hab.trans hbc

theorem listRepeat_pair_perm {α : Type} (a b : α) (n : Nat) :
    (listRepeat [a, b] n).Perm (List.replicate n a ++ List.replicate n b) := by
  refine (listRepeat_cons_perm a [b] n).trans ?_
  refine List.Perm.append_left _ ?_
  refine (listRepeat_cons_perm b [] n).trans ?_
  rw [listRepeat_nil, List.append_nil]

theorem listRepeat_triple_perm {α : Type} (a b c : α) (n : Nat) :
    (listRepeat [a, b, c] n).Perm
      (List.replicate n a ++ (List.replicate n b ++ List.replicate n c)) := by
  refine (listRepeat_cons_perm a [b, c] n).trans ?_
  exact List.Perm.append_left _ (listRepeat_pair_perm b c n)

theorem string_le_DF_DNF : ("DF" : String) ≤ "DNF" := by
  rw [String.le_iff_toList_le]
  decide

theorem string_le_DNF_FU : ("DNF" : String) ≤ "FU" := by
  rw [String.le_iff_toList_le]
  decide

/-- `sorted(VARIABLE_LIST * m)` is the three alphabetical blocks
DF, DNF, FU of size `m` each. -/
theorem pySorted_variables (m : Nat) :
    pySorted (listRepeat VARIABLE_LIST m)
      = List.replicate m "DF" ++ (List.replicate m "DNF" ++ List.replicate m "FU") := by
  refine pySorted_eq_of_perm_sorted _ _ ?_
    (sorted_three_blocks "DF" "DNF" "FU" string_le_DF_DNF string_le_DNF_FU m)
  refine (listRepeat_triple_perm "DNF" "DF" "FU" m).trans ?_
  rw [← List.append_assoc, ← List.append_assoc]
  exact List.Perm.append_right _ List.perm_append_comm

/-- `sorted([1, 2] * m)` is `m` ones followed by `m` twos. -/
theorem pySorted_phenologies (m : Nat) :
    pySorted (listRepeat [(1 : Int), 2] m)
      = List.replicate m (1 : Int) ++ List.replicate m 2 := by
  refine pySorted_eq_of_perm_sorted _ _ (listRepeat_pair_perm 1 2 m)
    (sorted_replicate_append_replicate 1 2 (by decide) m m)

end VegSurvey

namespace VegSurvey

/-- C5: for any (distinct, sorted) site list, the three independently
generated axis columns all have length `#sites * 3 * 2`, which is also the
body row count `num_rows` that `write_data_to_rows` fills — so every body
row carries a complete (site, variable, phenology) triple. -/
theorem c5_summary_row_count (sites : List String) :
    (sitesColumn sites).length = sites.length * 3 * 2
  ∧ (variablesColumn sites.length).length = sites.length * 3 * 2
  ∧ (phenologyColumn sites.length).length = sites.length * 3 * 2
  ∧ summaryNumRows sites.length = sites.length * 3 * 2 := by
  refine ⟨?_, ?_, ?_, ?_⟩
  · rw [sitesColumn, listRepeat_length]
    show 6 * sites.length = sites.length * 3 * 2
    omega
  · rw [variablesColumn, pySorted, List.length_insertionSort,
      listRepeat_listRepeat, listRepeat_length]
    simp only [NUM_PHENOLOGIES, VARIABLE_LIST, List.length_cons, List.length_nil]
    omega
  · rw [phenologyColumn, listRepeat_length, pySorted, List.length_insertionSort,
      listRepeat_length]
    show 3 * (sites.length * 2) = sites.length * 3 * 2
    omega
  · rw [summaryNumRows]
    show sites.length * 2 * 3 = sites.length * 3 * 2
    omega

/-- C6: the site column is the site list tiled 6 times; the variable column
is the alphabetical blocks DF, DNF, FU of size `#sites * 2` each; the
phenology column is `#sites` ones followed by `#sites` twos, that block
repeated once per variable (3 times). -/
theorem c6_axis_column_contents (sites : List String) :
    sitesColumn sites = listRepeat sites 6
  ∧ variablesColumn sites.length
      = List.replicate (sites.length * 2) "DF"
          ++ (List.replicate (sites.length * 2) "DNF"
          ++ List.replicate (sites.length * 2) "FU")
  ∧ phenologyColumn sites.length
      = listRepeat (List.replicate sites.length (1 : Int)
          ++ List.replicate sites.length 2) 3 := by
  refine ⟨rfl, ?_, ?_⟩
  · rw [variablesColumn, listRepeat_listRepeat]
    show pySorted (listRepeat VARIABLE_LIST (2 * sites.length)) = _
    rw [Nat.mul_comm 2 sites.length]
    exact pySorted_variables (sites.length * 2)
  · rw [phenologyColumn]
    show listRepeat (pySorted (listRepeat (pyRange 1 3) sites.length)) 3 = _
    have h12 : pyRange 1 3 = [(1 : Int), 2] := by decide
    rw [h12, pySorted_phenologies]

end VegSurvey

namespace VegSurvey

/-- The value `write_data_to_rows` (main.py lines 220-254) leaves in the body
cell at a row whose axis cells read back `(site_name, varName, phenology)`,
under the species column `species_name`.  `none` means the cell stays blank:
either no write happened (zero or several matching surveys / species — the
code prints a warning and moves on) or `None` was written (unrecognized
variable name, `datum = None`), which leaves an empty cell either way. -/
def fillCell (survey_list : List Survey) (site_name : String) (varName : String)
    (phenology : Int) (species_name : String) : Option Int :=
  match survey_list.filter (fun survey => survey.site == site_name && survey.phen_num == phenology) with
  | [survey] =>
    match survey.species.filter (fun species => species.id == species_name) with
    | [species_obj] =>
      if varName == "DNF" then some species_obj.dnf
      else if varName == "DF" then some species_obj.df
      else if varName == "FU" then some species_obj.fu
      else none
    | _ => none
  | _ => none

/-- A list with exactly one element satisfying `p`, which is `s`, filters to
`[s]`. -/
theorem filter_eq_singleton_of_countP {α : Type} (p : α → Bool) (l : List α) (s : α)
    (h1 : l.countP p = 1) (h2 : s ∈ l) (h3 : p s = true) :
    l.filter p = [s] := by
  induction l with
  | nil => cases h2
  | cons a t ih =>
    rw [List.countP_cons] at h1
    by_cases hpa : p a = true
    · have ht0 : t.countP p = 0 := by
        rw [if_pos hpa] at h1
        omega
      have hfil : t.filter p = [] := by
        rw [List.filter_eq_nil_iff]
        intro x hx
        simpa using (List.countP_eq_zero.mp ht0) x hx
      have hsa : s = a := by
        rcases List.mem_cons.mp h2 with h | h
        · exact h
        · exfalso
          have hpos : 0 < t.countP p := List.countP_pos_iff.mpr ⟨s, h, h3⟩
          omega
      rw [List.filter_cons_of_pos hpa, hfil, hsa]
    · have h1t : t.countP p = 1 := by
        rw [if_neg hpa] at h1
        omega
      have hmem : s ∈ t := by
        rcases List.mem_cons.mp h2 with h | h
        · exact absurd (h ▸ h3) hpa
        · exact h
      rw [List.filter_cons_of_neg (by simpa using hpa)]
      exact ih h1t hmem

end VegSurvey

namespace VegSurvey

/-- C7: if exactly one registered survey has site `X` and phenology index `K`
and it contains exactly one species record named `Y`, the body cell under
species column `Y` in the row `(X, V, K)` receives that record's field
selected by `V` (DNF, DF or FU); with zero or several matching surveys, or
zero or several matching species records, the cell stays blank. -/
theorem c7_fill_correctness (l : List Survey) (X Y : String) (K : Int) :
    (∀ s rec, l.countP (fun t => t.site == X && t.phen_num == K) = 1 →
        s ∈ l → s.site = X → s.phen_num = K →
        s.species.countP (fun q => q.id == Y) = 1 →
        rec ∈ s.species → rec.id = Y →
        fillCell l X "DNF" K Y = some rec.dnf
      ∧ fillCell l X "DF" K Y = some rec.df
      ∧ fillCell l X "FU" K Y = some rec.fu)
  ∧ (∀ V, l.countP (fun t => t.site == X && t.phen_num == K) ≠ 1 →
        fillCell l X V K Y = none)
  ∧ (∀ V s, l.filter (fun t => t.site == X && t.phen_num == K) = [s] →
        s.species.countP (fun q => q.id == Y) ≠ 1 →
        fillCell l X V K Y = none) := by
  refine ⟨?_, ?_, ?_⟩
  · intro s rec hc hmem hsite hphen hrc hrmem hrid
    have hfs : l.filter (fun t => t.site == X && t.phen_num == K) = [s] :=
      filter_eq_singleton_of_countP _ l s hc hmem (by simp [hsite, hphen])
    have hfr : s.species.filter (fun q => q.id == Y) = [rec] :=
      filter_eq_singleton_of_countP _ s.species rec hrc hrmem (by simp [hrid])
    refine ⟨?_, ?_, ?_⟩ <;> simp [fillCell, hfs, hfr]
  · intro V hne
    have hlen := List.countP_eq_length_filter (fun t => t.site == X && t.phen_num == K) l
    rcases hfl : l.filter (fun t => t.site == X && t.phen_num == K) with _ | ⟨x, _ | ⟨y, t⟩⟩
    · simp [fillCell, hfl]
    · rw [hfl] at hlen
      exact absurd hlen (by simpa using hne)
    · simp [fillCell, hfl]
  · intro V s hfs hrne
    have hlen := List.countP_eq_length_filter (fun q => q.id == Y) s.species
    rcases hfr : s.species.filter (fun q => q.id == Y) with _ | ⟨x, _ | ⟨y, t⟩⟩
    · simp [fillCell, hfs, hfr]
    · rw [hfr] at hlen
      exact absurd hlen (by simpa using hrne)
    · simp [fillCell, hfs, hfr]

/-- Concrete instantiation of C7: a one-survey registry where site "A",
phenology 1 holds one "Grass" record with flowering density 3. -/
theorem c7_fill_correctness_witness :
    fillCell [{ site := "A", date := 10,
                species := [{ id := "Grass", dnf := 2, df := 3, fu := 4 }],
                phen_num := 1 }] "A" "DF" 1 "Grass" = some 3 :=
  ((c7_fill_correctness _ "A" "Grass" 1).1
    { site := "A", date := 10,
      species := [{ id := "Grass", dnf := 2, df := 3, fu := 4 }], phen_num := 1 }
    { id := "Grass", dnf := 2, df := 3, fu := 4 }
    (by decide) (by decide) rfl rfl (by decide) (by decide) rfl).2.1

end VegSurvey

namespace VegSurvey

/-- CPython `str.split('.')` (no maxsplit), over the path as a character
list: split at every '.', keeping empty pieces; `"".split('.') == ['']`. -/
def splitOnDot : List Char → List (List Char)
  | [] => [[]]
  | c :: rest =>
    if c = '.' then [] :: splitOnDot rest
    else
      match splitOnDot rest with
      | h :: t => (c :: h) :: t
      | [] => [[c]]

/-- The output-path derivation in `main` (main.py lines 291-292):
`file_name, extension = data.split('.')` followed by
`file_name + "_summarized" + "." + extension`.  The tuple unpacking raises
`ValueError` unless the split has exactly two parts, modelled by `none`. -/
def deriveOutputPath (data : List Char) : Option (List Char) :=
  match splitOnDot data with
  | [file_name, extension] => some (file_name ++ "_summarized".toList ++ ".".toList ++ extension)
  | _ => none

theorem splitOnDot_no_dot (l : List Char) (h : '.' ∉ l) : splitOnDot l = [l] := by
  induction l with
  | nil => rfl
  | cons c t ih =>
    have hc : c ≠ '.' := fun e => h (e ▸ List.mem_cons_self c t)
    have ht : '.' ∉ t := fun m => h (List.mem_cons_of_mem c m)
    rw [splitOnDot, if_neg hc, ih ht]

theorem splitOnDot_single_dot (stem ext : List Char) (hstem : '.' ∉ stem) :
    splitOnDot (stem ++ '.' :: ext) = stem :: splitOnDot ext := by
  induction stem with
  | nil => simp [splitOnDot]
  | cons c t ih =>
    have hc : c ≠ '.' := fun e => hstem (e ▸ List.mem_cons_self c t)
    have ht : '.' ∉ t := fun m => hstem (List.mem_cons_of_mem c m)
    rw [List.cons_append, splitOnDot, if_neg hc, ih ht]

end VegSurvey

namespace VegSurvey

/-- C9 counterexample: the program accepts any readable path via `--data`,
but for an input whose name contains more than one '.' (here `v1.2.xlsx`)
the unpacking `file_name, extension = data.split('.')` fails (three parts),
so the claimed derivation does NOT succeed for every accepted input path. -/
theorem c9_counterexample :
    deriveOutputPath "v1.2.xlsx".toList = none := by decide

/-- C9 (amended): for an input path with exactly one '.' — a dot-free stem,
one dot, a dot-free extension — the output path is the stem, then
`_summarized`, then the dot and the extension; for any other number of dots
the derivation fails instead of succeeding. -/
theorem c9_output_path (stem ext : List Char) (hstem : '.' ∉ stem) (hext : '.' ∉ ext) :
    deriveOutputPath (stem ++ '.' :: ext)
      = some (stem ++ "_summarized".toList ++ ".".toList ++ ext) := by
  rw [deriveOutputPath, splitOnDot_single_dot stem ext hstem, splitOnDot_no_dot ext hext]

/-- Instantiation of the amended C9 at the spec's example
`survey.xlsx → survey_summarized.xlsx`. -/
theorem c9_output_path_witness :
    '.' ∉ "survey".toList ∧ '.' ∉ "xlsx".toList ∧
    deriveOutputPath ("survey".toList ++ '.' :: "xlsx".toList)
      = some ("survey".toList ++ "_summarized".toList ++ ".".toList ++ "xlsx".toList) :=
  ⟨by decide, by decide,
    c9_output_path "survey".toList "xlsx".toList (by decide) (by decide)⟩

end VegSurvey

namespace VegSurvey

/-- A worksheet cell value: openpyxl cells in this program hold either a
string or a number. -/
inductive CellVal
  | str (s : String)
  | int (n : Int)

/-- The Summary worksheet, 1-based (row, column) as in openpyxl; `none` is an
empty cell. -/
def Sheet : Type := Nat → Nat → Option CellVal

/-- Assigning `cell.value`. -/
def setCell (ws : Sheet) (row col : Nat) (v : Option CellVal) : Sheet :=
  fun r c => if r = row ∧ c = col then v else ws r c

/-- The program state the summarizing pass of `main` (main.py lines 281-288)
works on: the `Survey` class-level registry plus the Summary worksheet. -/
structure ProgramState where
  registry : Registry
  sum_ws : Sheet

/-- Write a list of values down one column starting at row 2 (the body rows
all writers target via `iter_rows(min_row=2, ...)` zipped against their value
list). -/
def writeColumn (ws : Sheet) (col : Nat) (vals : List CellVal) : Sheet :=
  vals.enum.foldl (fun w p => setCell w (2 + p.1) col (some p.2)) ws

/-- `write_summary_headers` (main.py lines 178-191): the three axis headers
and one header cell per species from column 4 on.  The species count always
fits the generated column window, so the `StopIteration` warning branch is
unreachable. -/
def write_summary_headers (st : ProgramState) (all_species : List String) : ProgramState :=
  let ws := setCell st.sum_ws 1 1 (some (.str "Site"))
  let ws := setCell ws 1 2 (some (.str "Variable"))
  let ws := setCell ws 1 3 (some (.str "Phenology"))
  { st with sum_ws := all_species.enum.foldl (fun w p => setCell w 1 (4 + p.1) (some (.str p.2))) ws }

/-- `write_sites_to_rows` (main.py lines 194-199). -/
def write_sites_to_rows (st : ProgramState) (site_names : List String) : ProgramState :=
  { st with sum_ws := writeColumn st.sum_ws 1 ((sitesColumn site_names).map .str) }

/-- `write_variables_to_rows` (main.py lines 202-206). -/
def write_variables_to_rows (st : ProgramState) (num_sites : Nat) : ProgramState :=
  { st with sum_ws := writeColumn st.sum_ws 2 ((variablesColumn num_sites).map .str) }

/-- `write_phenology_to_rows` (main.py lines 209-214). -/
def write_phenology_to_rows (st : ProgramState) (num_sites : Nat) : ProgramState :=
  { st with sum_ws := writeColumn st.sum_ws 3 ((phenologyColumn num_sites).map .int) }

/-- `write_data_to_rows` (main.py lines 217-254): for each body row, read the
axis triple back from columns 1-3 and fill each species column from
`fillCell`.  A `none` from `fillCell` is no write / a `None` write — the
cell stays empty either way; rows whose axis cells do not decode to
(string, string, int) match no survey in the source (`survey.site ==
site_name` is `False` against `None`), so nothing is written there either. -/
def write_data_to_rows (st : ProgramState) (survey_list : List Survey) (num_sites : Nat)
    (species_list : List String) : ProgramState :=
  let num_rows := num_sites * NUM_PHENOLOGIES * VARIABLE_LIST.length
  { st with sum_ws := (List.range num_rows).foldl (fun w i =>
      let row := i + 2
      match w row 1, w row 2, w row 3 with
      | some (.str site_name), some (.str varName), some (.int phenology) =>
        species_list.enum.foldl (fun w2 p =>
          match fillCell survey_list site_name varName phenology p.2 with
          | some datum => setCell w2 row (p.1 + 4) (some (.int datum))
          | none => w2) w
      | _, _, _ => w) st.sum_ws }

/-- The whole summarizing pass of `main` (main.py lines 281-288), after
ingestion produced the registry, the sorted distinct species ids and the
sorted distinct site names. -/
def build_summary (st : ProgramState) (species_ids : List String) (all_sites : List String) : ProgramState :=
  let num_sites := all_sites.length
  let st1 := write_summary_headers st species_ids
  let st2 := write_sites_to_rows st1 all_sites
  let st3 := write_variables_to_rows st2 num_sites
  let st4 := write_phenology_to_rows st3 num_sites
  write_data_to_rows st4 st4.registry.all_surveys num_sites species_ids

/-- C10: the summary-building pass — headers, the three axis writers and the
data fill — never mutates the survey registry: `all_surveys` (hence every
survey's site, date, species list and phenology index) and `survey_dates`
are exactly what ingestion left there. -/
theorem c10_summary_pass_preserves_registry (st : ProgramState)
    (species_ids all_sites : List String) :
    (build_summary st species_ids all_sites).registry = st.registry := rfl

end VegSurvey
